import Mathlib

/-!
Verification of the tris3d rules engine (a three-player 3×3×3 tic-tac-toe
variant, written in Rust) against its natural-language specification.

The Rust sources are embedded shallowly:

* `src/z3.rs` — the Z3 semi-sum operator on `u8`;
* `src/z3xz3xz3.rs` — the index/coordinate bijection for the 27 cells and the
  component-wise semi-sum on Z3³ vectors;
* `src/winning_combinations.rs` — the label → vector table and the
  winning-combination detector `get_is_winning_combination`;
* `src/board.rs` — the `Board` (chronological move list) with `add_move`,
  `get_num_tris` and the `POSITION` label alphabet;
* `src/game.rs` — the `Game` (player roster and lifecycle) with `add_player`
  and `add_move`, over the error enum of `src/errors.rs`.

Machine integers (`u8`, `u32` inside `char`) are modelled as `Nat` with
explicit `% 256` where the Rust expression could conceivably wrap; Rust
`Result` is modelled as `Except`; mutation of `&mut self` is modelled by
returning the new state next to the result value.
-/

namespace Tris3d

/-- A Z3³ vector, as in `z3xz3xz3.rs`: `pub type Z3xZ3xZ3Vector = (u8, u8, u8)`.
Components are `Nat`; the Rust code only ever builds components in {0,1,2}. -/
abbrev Z3xZ3xZ3Vector := Nat × Nat × Nat

/-- From `z3.rs`: `pub fn z3_semi_sum(a: u8, b: u8) -> u8 { ((a + b) * 2) % 3 }`.
The `u8` additions and multiplication wrap modulo 256, so the faithful
embedding reduces each intermediate modulo 256 before the final `% 3`. -/
def z3_semi_sum (a b : Nat) : Nat :=
  ((((a + b) % 256) * 2) % 256) % 3

/-- From `z3xz3xz3.rs`:
`(index - (index % 9)) / 9, ((index - (index % 3)) / 3) % 3, index % 3`.
`Nat` subtraction agrees with `u8` subtraction here because
`index % 9 ≤ index` and `index % 3 ≤ index` (no underflow). -/
def coordinates_of_index (index : Nat) : Z3xZ3xZ3Vector :=
  ((index - (index % 9)) / 9, ((index - (index % 3)) / 3) % 3, index % 3)

/-- From `z3xz3xz3.rs`: `vector.0 * 9 + vector.1 * 3 + vector.2`. -/
def index_of_coordinates (vector : Z3xZ3xZ3Vector) : Nat :=
  vector.1 * 9 + vector.2.1 * 3 + vector.2.2

/-- From `z3xz3xz3.rs`: the component-wise semi-sum on Z3³.
(`z3xz3xz3.rs` calls it `z3::semi_sum`; the only semi-sum defined in
`z3.rs` is `z3_semi_sum`, with the very same documented body.) -/
def semi_sum (a b : Z3xZ3xZ3Vector) : Z3xZ3xZ3Vector :=
  (z3_semi_sum a.1 b.1, z3_semi_sum a.2.1 b.2.1, z3_semi_sum a.2.2 b.2.2)

/-- Modelled from the spec: `are_equal` is imported by
`winning_combinations.rs` and `board.rs` from `z3xz3xz3.rs`, but no
definition of it appears under `src/`.  Spec §4.2: "`areEqual(a, b)`
compares vectors component-wise modulo 3 (so integer inputs outside 0–2 are
accepted and normalized before comparison)". -/
def are_equal (a b : Z3xZ3xZ3Vector) : Bool :=
  a.1 % 3 == b.1 % 3 && a.2.1 % 3 == b.2.1 % 3 && a.2.2 % 3 == b.2.2 % 3

/-- From `winning_combinations.rs` (and identically in `board.rs`):
the label → Z3³ vector table. -/
def vector_of_position (position : Char) : Option Z3xZ3xZ3Vector :=
  match position with
  | 'A' => some (0, 0, 0)
  | 'H' => some (1, 0, 0)
  | 'G' => some (2, 0, 0)
  | 'B' => some (0, 1, 0)
  | 'I' => some (1, 1, 0)
  | 'F' => some (2, 1, 0)
  | 'C' => some (0, 2, 0)
  | 'D' => some (1, 2, 0)
  | 'E' => some (2, 2, 0)
  | 'J' => some (0, 0, 1)
  | 'Q' => some (1, 0, 1)
  | 'P' => some (2, 0, 1)
  | 'K' => some (0, 1, 1)
  | '*' => some (1, 1, 1)
  | 'O' => some (2, 1, 1)
  | 'L' => some (0, 2, 1)
  | 'M' => some (1, 2, 1)
  | 'N' => some (2, 2, 1)
  | 'R' => some (0, 0, 2)
  | 'X' => some (1, 0, 2)
  | 'Y' => some (2, 0, 2)
  | 'S' => some (0, 1, 2)
  | 'Z' => some (1, 1, 2)
  | 'W' => some (2, 1, 2)
  | 'T' => some (0, 2, 2)
  | 'U' => some (1, 2, 2)
  | 'V' => some (2, 2, 2)
  | _ => none

/-- From `winning_combinations.rs`: the error enum of the detector. -/
inductive GetIsWinningCombinationError where
  | InvalidPosition
  | PositionsMustBeDistinct
deriving DecidableEq

/-- From `winning_combinations.rs`, `get_is_winning_combination`:
validate the three labels, require them pairwise distinct, then run the
geometric case analysis (collinearity by semi-sum, line through the cube
center, axis-parallel line, face diagonal through a face center). -/
def get_is_winning_combination (position_a position_b position_c : Char) :
    Except GetIsWinningCombinationError Bool :=
  match vector_of_position position_a with
  | none => .error .InvalidPosition
  | some vector_a =>
  match vector_of_position position_b with
  | none => .error .InvalidPosition
  | some vector_b =>
  match vector_of_position position_c with
  | none => .error .InvalidPosition
  | some vector_c =>
  if position_a == position_b || position_a == position_c
      || position_b == position_c then
    .error .PositionsMustBeDistinct
  else
    let vector_semi_sum := semi_sum vector_a vector_b
    if !(are_equal vector_semi_sum vector_c) then
      .ok false
    else if position_a == '*' || position_b == '*' || position_c == '*' then
      .ok true
    else if vector_a.1 == vector_b.1 && vector_a.2.1 == vector_b.2.1 then
      .ok true
    else if vector_a.1 == vector_b.1 && vector_a.2.2 == vector_b.2.2 then
      .ok true
    else if vector_a.2.1 == vector_b.2.1 && vector_a.2.2 == vector_b.2.2 then
      .ok true
    else if vector_a.1 == vector_b.1 &&
        (are_equal (vector_a.1, 1, 1) vector_a
          || are_equal (vector_a.1, 1, 1) vector_b
          || are_equal (vector_a.1, 1, 1) vector_c) then
      .ok true
    else if vector_a.2.1 == vector_b.2.1 &&
        (are_equal (1, vector_a.2.1, 1) vector_a
          || are_equal (1, vector_a.2.1, 1) vector_b
          || are_equal (1, vector_a.2.1, 1) vector_c) then
      .ok true
    else if vector_a.2.2 == vector_b.2.2 &&
        (are_equal (1, 1, vector_a.2.2) vector_a
          || are_equal (1, 1, vector_a.2.2) vector_b
          || are_equal (1, 1, vector_a.2.2) vector_c) then
      .ok true
    else
      .ok false

/-- From `board.rs`: the 27-label alphabet `POSITION`, listed layer by layer. -/
def POSITION : List Char :=
  ['A', 'H', 'G', 'B', 'I', 'F', 'C', 'D', 'E',
   'J', 'Q', 'P', 'K', '*', 'O', 'L', 'M', 'N',
   'R', 'X', 'Y', 'S', 'Z', 'W', 'T', 'U', 'V']

/-- Specification-side definition (spec §4.4 / claim C1): three points of the
3×3×3 cube lie on a straight line of the cube exactly when, in some order,
the middle one is the integer midpoint of the other two, component-wise with
no modular wrap-around.  `mid3 p q r` says `q` is the midpoint of `p` and
`r`. -/
def mid3 (p q r : Z3xZ3xZ3Vector) : Bool :=
  p.1 + r.1 == 2 * q.1 && p.2.1 + r.2.1 == 2 * q.2.1
    && p.2.2 + r.2.2 == 2 * q.2.2

/-- Specification-side definition: `{a, b, c}` (assumed pairwise distinct,
components in {0,1,2}) is one of the straight lines of the 3×3×3 cube —
axis-parallel, face-diagonal, or space-diagonal — i.e. some one of the three
points is the integer midpoint of the other two. -/
def is_line_of_cube (a b c : Z3xZ3xZ3Vector) : Bool :=
  mid3 a b c || mid3 a c b || mid3 b a c

/-- Specification-side definition: the line predicate lifted to labels; an
invalid label yields `false`. -/
def is_winning_line_labels (a b c : Char) : Bool :=
  match vector_of_position a, vector_of_position b, vector_of_position c with
  | some va, some vb, some vc => is_line_of_cube va vb vc
  | _, _, _ => false

instance : DecidableEq (Except GetIsWinningCombinationError Bool) := fun x y =>
  match x, y with
  | .ok a, .ok b =>
      if h : a = b then isTrue (by rw [h]) else isFalse (by simp [h])
  | .error a, .error b =>
      if h : a = b then isTrue (by rw [h]) else isFalse (by simp [h])
  | .ok _, .error _ => isFalse (by simp)
  | .error _, .ok _ => isFalse (by simp)

/-- Specification-side definition: the number of unordered triples of cells of
the 3×3×3 cube (enumerated by index triples `i < j < k` over the 27 indices)
that lie on one straight line of the cube. -/
def num_lines_of_cube : Nat :=
  (((List.range 27).flatMap fun i =>
      (List.range 27).flatMap fun j =>
        (List.range 27).map fun k => (i, j, k)).filter fun t =>
    t.1 < t.2.1 && t.2.1 < t.2.2 &&
      is_line_of_cube (coordinates_of_index t.1) (coordinates_of_index t.2.1)
        (coordinates_of_index t.2.2)).length

/-- Modelled from the spec: the board status tag.  `game.rs` reads
`self.board.status` and names `BoardStatus::IsPlaying`, but `board.rs` (the
only definition of `Board` under `src/`) has no `status` field and no
`BoardStatus` type; spec §3 gives the tag as {Playing, HasWinner, Tied} with
initial value Playing. -/
inductive BoardStatus where
  | IsPlaying
  | HasWinner
  | IsTied
deriving DecidableEq

/-- From `board.rs`: `pub struct Board { moves: Vec<char> }`, extended with
the spec-modelled `status` field that `game.rs` reads (see `BoardStatus`).
No code under `src/` ever writes `status`; the functions embedded from
`board.rs` leave it untouched, faithfully to the source as given. -/
structure Board where
  moves : List Char
  status : BoardStatus
deriving DecidableEq

/-- From `board.rs`: `Board::new` creates the empty board (status starts at
Playing per spec §3). -/
def Board.new : Board := ⟨[], .IsPlaying⟩

/-- From `board.rs`, `Board::get_num_tris`: returns 0 before the seventh
move, and otherwise the constant 1 — the win-counting body is not
implemented in `board.rs`. -/
def Board.get_num_tris (b : Board) : Nat :=
  if b.moves.length < 7 then 0 else 1

/-- From `board.rs`, `Board::add_move`.  The Rust scans `POSITION` with a
loop that pushes `position` at the first match and breaks; that is embedded
as the membership test `position ∈ POSITION` guarding a single append.
Mutation of `&mut self` is modelled by returning the new board next to the
`Result`. -/
def Board.add_move (b : Board) (position : Char) :
    Board × Except String Nat :=
  if b.get_num_tris > 0 then
    (b, .error "Game over, there is already a winner.")
  else if b.moves.length = POSITION.length then
    (b, .error "Board is full.")
  else if position ∈ b.moves then
    (b, .error "Position already taken.")
  else if position ∈ POSITION then
    let b2 : Board := { b with moves := b.moves ++ [position] }
    (b2, .ok b2.get_num_tris)
  else
    (b, .error "Position is not valid.")

/-- From `errors.rs`: the error enum shared by the game layer. -/
inductive Error where
  | BoardIsFull
  | CannotAddMoreThanThreePlayers
  | CannotAddSamePlayerTwice
  | GameIsOver
  | GameNotStartedYet
  | InvalidPosition
  | PlayerMustWaitForTurn
  | PlayerNotFound
  | PositionAlreadyTaken
  | PositionsMustBeDistinct
  | ThereIsAlreadyAWinner
deriving DecidableEq

/-- From `game.rs`: the game lifecycle tag. -/
inductive GameStatus where
  | WaitingForPlayers
  | IsPlaying
  | IsOver
deriving DecidableEq

/-- From `game.rs`: `pub struct Game { board, player_ids, status }`. -/
structure Game where
  board : Board
  player_ids : List String
  status : GameStatus
deriving DecidableEq

/-- From `game.rs`: `Game::new` — no players, empty board, waiting. -/
def Game.new : Game := ⟨Board.new, [], .WaitingForPlayers⟩

/-- From `game.rs`: `Game::num_players`. -/
def Game.num_players (g : Game) : Nat := g.player_ids.length

/-- From `game.rs`, `Game::add_player`: reject a fourth player and duplicate
ids, append the id, and start playing once the roster reaches three. -/
def Game.add_player (g : Game) (player_id : String) :
    Game × Except Error Unit :=
  if g.num_players = 3 then
    (g, .error .CannotAddMoreThanThreePlayers)
  else if player_id ∈ g.player_ids then
    (g, .error .CannotAddSamePlayerTwice)
  else
    let g2 : Game := { g with player_ids := g.player_ids ++ [player_id] }
    if g2.num_players = 3 then
      ({ g2 with status := .IsPlaying }, .ok ())
    else
      (g2, .ok ())

/-- Modelled from the spec: `game.rs` delegates to a `Board::add_move`
returning `Result<u8, Error>`, but the only `Board::add_move` under `src/`
(in `board.rs`) returns `Result<u8, &str>`; the enum-returning Board that
`game.rs` links against is not under `src/`.  Spec §4.5 names the four Board
failures, matching the four `board.rs` messages one-to-one. -/
def errorOfBoardMessage (s : String) : Error :=
  if s = "Game over, there is already a winner." then .ThereIsAlreadyAWinner
  else if s = "Board is full." then .BoardIsFull
  else if s = "Position already taken." then .PositionAlreadyTaken
  else .InvalidPosition

/-- From `game.rs`, `Game::add_move`: reject before the roster is complete,
when the board is no longer playing, and unknown ids; otherwise delegate to
`Board.add_move` (whose string errors are carried over to the `errors.rs`
enum by the spec-modelled `errorOfBoardMessage`).  `game.rs` performs no
turn-order check. -/
def Game.add_move (g : Game) (player_id : String) (position : Char) :
    Game × Except Error Nat :=
  if g.status = .WaitingForPlayers then
    (g, .error .GameNotStartedYet)
  else if g.board.status ≠ .IsPlaying then
    (g, .error .GameIsOver)
  else if player_id ∉ g.player_ids then
    (g, .error .PlayerNotFound)
  else
    match g.board.add_move position with
    | (b2, .ok n) => ({ g with board := b2 }, .ok n)
    | (b2, .error s) => ({ g with board := b2 }, .error (errorOfBoardMessage s))

/-- Modelled from the spec (§4.5, `getNumWinningCombinations`): 0 before the
seventh move; otherwise let `k = (moves made − 1) mod 3`, collect the cells
of the player who just moved (sequence positions `k, k+3, k+6, …`) and count
the unordered triples among them that the detector accepts.  This is the
counting body that `board.rs`'s stub `get_num_tris` does not implement. -/
def getNumWinningCombinations_spec (moves : List Char) : Nat :=
  if moves.length < 7 then 0
  else
    let k := (moves.length - 1) % 3
    let own := ((List.range moves.length).filter fun i => i % 3 = k).map
      fun i => moves.getD i ' '
    (((List.range own.length).flatMap fun i =>
        (List.range own.length).flatMap fun j =>
          (List.range own.length).map fun l => (i, j, l)).filter fun t =>
      t.1 < t.2.1 && t.2.1 < t.2.2 &&
        (get_is_winning_combination (own.getD t.1 ' ') (own.getD t.2.1 ' ')
          (own.getD t.2.2 ' ') = Except.ok true)).length

/-- Apply `Board.add_move` in sequence, keeping only the board states. -/
def Board.add_moves (b : Board) (ms : List Char) : Board :=
  ms.foldl (fun acc m => (acc.add_move m).1) b

/-- The move sequence of claim C2's failing input: seven successful moves
after which the mover's cells A, D, G are not collinear. -/
def c2_moves : List Char := ['A', 'B', 'C', 'D', 'E', 'F', 'G']

/-- A board holding all 27 labels (a full board). -/
def full_board : Board := ⟨POSITION, .IsPlaying⟩

/-- A game with the three players P1, P2, P3 registered, ready to play. -/
def c4_game : Game :=
  ((((Game.new.add_player "P1").1.add_player "P2").1.add_player "P3").1)

/-- The boards reachable from the empty board through `Board.add_move`
calls, successful or failed (a failed call leaves the board unchanged). -/
inductive Reachable : Board → Prop where
  | new : Reachable Board.new
  | step (b : Board) (c : Char) : Reachable b → Reachable (b.add_move c).1

/-- Exhaustive check behind claim C1: over every ordered triple of labels of
the alphabet, either two labels coincide or the detector answers `Ok` of the
straight-line predicate. -/
def c1_check : Bool :=
  POSITION.all fun a => POSITION.all fun b => POSITION.all fun c =>
    a == b || a == c || b == c ||
      decide (get_is_winning_combination a b c =
        Except.ok (is_winning_line_labels a b c))

set_option maxRecDepth 100000 in
/-- C1 counterexample: the number of unordered triples of cells lying on a
straight line of the 3×3×3 cube is 49, not 76 as the claim states.  (The
spec's count of 76 = 24·3 + 4 counts the rows of the source's
`WINNING_COMBINATIONS` table, in which every axis-parallel line appears
twice — once for each of the two axis-perpendicular planes containing
it: 27·2 + 18 + 4 = 76.) -/
theorem C1_not_76_lines :
    num_lines_of_cube = 49 ∧ num_lines_of_cube ≠ 76 := by
  constructor
  · decide
  · decide

set_option maxRecDepth 100000 in
set_option maxHeartbeats 8000000 in
/-- The exhaustive check `c1_check` holds by evaluation. -/
theorem c1_check_true : c1_check = true := rfl

set_option maxRecDepth 100000 in
/-- C1 (amended): for every ordered triple of pairwise-distinct labels drawn
from the 27-label alphabet, `get_is_winning_combination` returns `Ok true`
exactly when the set of the three corresponding Z3³ vectors is one of the 49
straight lines of the 3×3×3 cube (axis-parallel, face-diagonal, or
space-diagonal), and `Ok false` for every other such triple. -/
theorem C1_detector_decides_cube_lines :
    (∀ a ∈ POSITION, ∀ b ∈ POSITION, ∀ c ∈ POSITION,
      a ≠ b → a ≠ c → b ≠ c →
      get_is_winning_combination a b c =
        Except.ok (is_winning_line_labels a b c)) ∧
    num_lines_of_cube = 49 := by
  constructor
  · intro a ha b hb c hc hab hac hbc
    have h := c1_check_true
    unfold c1_check at h
    have h2 := List.all_eq_true.mp
      (List.all_eq_true.mp (List.all_eq_true.mp h a ha) b hb) c hc
    simp only [Bool.or_eq_true, beq_iff_eq, decide_eq_true_eq] at h2
    rcases h2 with ((hh | hh) | hh) | hh
    · exact absurd hh hab
    · exact absurd hh hac
    · exact absurd hh hbc
    · exact hh
  · decide

/-- C1 witness: the detector agrees with the line predicate on the concrete
axis-parallel triple A, B, C. -/
theorem C1_detector_decides_cube_lines_witness :
    get_is_winning_combination 'A' 'B' 'C' =
      Except.ok (is_winning_line_labels 'A' 'B' 'C') :=
  C1_detector_decides_cube_lines.1 'A' (by decide) 'B' (by decide)
    'C' (by decide) (by decide) (by decide) (by decide)

/-- C2: after the seven successful moves A, B, C, D, E, F, G from a new
board (all seven appended, as the final move list shows), the code's
`get_num_tris` answers 1, although the cells of the player who just moved
(A, D, G — sequence positions 0, 3, 6) contain no winning triple: the
spec-side count of winning triples is 0.  The claim is right and
`board.rs`'s stub `get_num_tris` is wrong. -/
theorem C2_get_num_tris_stub_diverges :
    (Board.add_moves Board.new c2_moves).moves = c2_moves ∧
    (Board.add_moves Board.new c2_moves).get_num_tris = 1 ∧
    getNumWinningCombinations_spec
      (Board.add_moves Board.new c2_moves).moves = 0 :=
  ⟨rfl, rfl, rfl⟩

/-- C3: on a board holding all 27 labels (a full board), `add_move` fails
with the "Game over, there is already a winner." message — the claim says a
full board fails with `BoardIsFull`, but the stub `get_num_tris` makes the
winner check fire first on any board with at least 7 moves, so the
"Board is full." branch of `board.rs` is unreachable. -/
theorem C3_full_board_reports_winner :
    full_board.moves.length = 27 ∧
    (full_board.add_move 'A').2 =
      Except.error "Game over, there is already a winner." :=
  ⟨rfl, rfl⟩

/-- C4: in a game whose status is Playing and whose roster is P1, P2, P3,
the move of P2 on the empty board (turn index 0, i.e. P1's turn) succeeds
with `Ok 0` instead of failing with `PlayerMustWaitForTurn`: `game.rs`
performs no turn-order check, and `PlayerMustWaitForTurn` is declared in
`errors.rs` but never produced. -/
theorem C4_no_turn_order_check :
    c4_game.status = GameStatus.IsPlaying ∧
    c4_game.player_ids = ["P1", "P2", "P3"] ∧
    (c4_game.add_move "P2" 'A').2 = Except.ok 0 :=
  ⟨rfl, rfl, rfl⟩

/-- C6: for a, b ∈ {0,1,2}, `z3_semi_sum a b = ((a + b) * 2) % 3`; the
operator is commutative and is the identity on equal arguments, and on
distinct arguments it takes the six cyclic values of the claim. -/
theorem C6_z3_semi_sum_contract :
    (∀ a < 3, ∀ b < 3,
      z3_semi_sum a b = ((a + b) * 2) % 3 ∧
      z3_semi_sum a b = z3_semi_sum b a ∧
      z3_semi_sum a a = a) ∧
    z3_semi_sum 0 1 = 2 ∧ z3_semi_sum 1 2 = 0 ∧ z3_semi_sum 2 0 = 1 ∧
    z3_semi_sum 0 2 = 1 ∧ z3_semi_sum 2 1 = 0 ∧ z3_semi_sum 1 0 = 2 := by
  decide

/-- C6 witness: the quantified part of the contract at a = 1, b = 2. -/
theorem C6_z3_semi_sum_contract_witness :
    z3_semi_sum 1 2 = ((1 + 2) * 2) % 3 ∧
    z3_semi_sum 1 2 = z3_semi_sum 2 1 ∧
    z3_semi_sum 1 1 = 1 :=
  C6_z3_semi_sum_contract.1 1 (by decide) 2 (by decide)

/-- C7: for every index i in [0, 26], `index_of_coordinates` inverts
`coordinates_of_index`: the two functions are exact inverses on the 27
indices. -/
theorem C7_index_coordinates_inverse :
    ∀ i < 27, index_of_coordinates (coordinates_of_index i) = i := by
  decide

/-- C7 witness: the inverse round-trip at index 22. -/
theorem C7_index_coordinates_inverse_witness :
    index_of_coordinates (coordinates_of_index 22) = 22 :=
  C7_index_coordinates_inverse 22 (by decide)

/-- C10: for a, b ∈ {0,1,2} the u8 intermediate `(a + b) * 2` is at most 8,
so the `% 256` reductions of the u8 embedding are the identity (no
overflow), and the result is again in {0,1,2}; consequently the
component-wise `semi_sum` maps vectors with all components in {0,1,2} to
vectors with all components in {0,1,2}. -/
theorem C10_semi_sum_no_overflow :
    (∀ a < 3, ∀ b < 3,
      (a + b) * 2 ≤ 8 ∧
      (((a + b) % 256) * 2) % 256 = (a + b) * 2 ∧
      z3_semi_sum a b < 3) ∧
    (∀ v w : Z3xZ3xZ3Vector,
      v.1 < 3 → v.2.1 < 3 → v.2.2 < 3 → w.1 < 3 → w.2.1 < 3 → w.2.2 < 3 →
      (semi_sum v w).1 < 3 ∧ (semi_sum v w).2.1 < 3 ∧
        (semi_sum v w).2.2 < 3) := by
  have hs : ∀ a < 3, ∀ b < 3,
      (a + b) * 2 ≤ 8 ∧
      (((a + b) % 256) * 2) % 256 = (a + b) * 2 ∧
      z3_semi_sum a b < 3 := by decide
  refine ⟨hs, ?_⟩
  intro v w hv1 hv2 hv3 hw1 hw2 hw3
  exact ⟨(hs v.1 hv1 w.1 hw1).2.2, (hs v.2.1 hv2 w.2.1 hw2).2.2,
    (hs v.2.2 hv3 w.2.2 hw3).2.2⟩

/-- C5: `get_is_winning_combination` fails with `InvalidPosition` whenever
any of the three labels is outside the 27-label alphabet (the validity check
precedes the distinctness check for every argument position), and fails with
`PositionsMustBeDistinct` whenever all three labels are valid and two of
them coincide. -/
theorem C5_detector_error_contract : ∀ a b c : Char,
    ((vector_of_position a = none ∨ vector_of_position b = none ∨
        vector_of_position c = none) →
      get_is_winning_combination a b c =
        Except.error GetIsWinningCombinationError.InvalidPosition) ∧
    ((vector_of_position a).isSome → (vector_of_position b).isSome →
      (vector_of_position c).isSome → (a = b ∨ a = c ∨ b = c) →
      get_is_winning_combination a b c =
        Except.error GetIsWinningCombinationError.PositionsMustBeDistinct) := by
  intro a b c
  constructor
  · intro h
    cases hva : vector_of_position a <;> cases hvb : vector_of_position b <;>
      cases hvc : vector_of_position c <;>
      simp only [get_is_winning_combination, hva, hvb, hvc] <;>
      simp_all
  · intro ha hb hc hdup
    obtain ⟨va, hva⟩ := Option.isSome_iff_exists.mp ha
    obtain ⟨vb, hvb⟩ := Option.isSome_iff_exists.mp hb
    obtain ⟨vc, hvc⟩ := Option.isSome_iff_exists.mp hc
    have hcond : (a == b || a == c || b == c) = true := by
      rcases hdup with h | h | h <;> simp [h]
    simp only [get_is_winning_combination, hva, hvb, hvc, hcond, if_pos]

/-- C5 witness: an invalid label in the first slot wins over the duplicate
pair behind it, and a duplicated valid label yields the distinctness
error. -/
theorem C5_detector_error_contract_witness :
    get_is_winning_combination ' ' 'A' 'A' =
      Except.error GetIsWinningCombinationError.InvalidPosition ∧
    get_is_winning_combination 'A' 'A' 'B' =
      Except.error GetIsWinningCombinationError.PositionsMustBeDistinct :=
  ⟨(C5_detector_error_contract ' ' 'A' 'A').1 (Or.inl rfl),
    (C5_detector_error_contract 'A' 'A' 'B').2 (by decide) (by decide)
      (by decide) (Or.inl rfl)⟩

/-- C8: every board reachable from the empty board through `add_move` calls
(successful or failed) has pairwise-distinct moves, only moves drawn from
the 27-label alphabet, and at most 27 moves. -/
theorem C8_board_invariant : ∀ b, Reachable b →
    b.moves.Nodup ∧ (∀ m ∈ b.moves, m ∈ POSITION) ∧ b.moves.length ≤ 27 := by
  intro b h
  induction h with
  | new => exact ⟨by decide, by decide, by decide⟩
  | step b c hb ih =>
    obtain ⟨h1, h2, h3⟩ := ih
    unfold Board.add_move
    split_ifs with hw hf ht hv
    · exact ⟨h1, h2, h3⟩
    · exact ⟨h1, h2, h3⟩
    · exact ⟨h1, h2, h3⟩
    · refine ⟨?_, ?_, ?_⟩
      · simpa [List.nodup_append] using ⟨h1, ht⟩
      · intro m hm
        rcases List.mem_append.mp hm with hm | hm
        · exact h2 m hm
        · simpa using List.mem_singleton.mp hm ▸ hv
      · have h27 : b.moves.length ≠ 27 := by simpa [POSITION] using hf
        simp only [List.length_append, List.length_singleton]
        omega
    · exact ⟨h1, h2, h3⟩

/-- C8 witness: the invariant at the board reached by playing A and then
failing to play A again. -/
theorem C8_board_invariant_witness :
    (((Board.new.add_move 'A').1.add_move 'A').1).moves.Nodup ∧
    (∀ m ∈ (((Board.new.add_move 'A').1.add_move 'A').1).moves,
      m ∈ POSITION) ∧
    (((Board.new.add_move 'A').1.add_move 'A').1).moves.length ≤ 27 :=
  C8_board_invariant _
    (Reachable.step _ 'A' (Reachable.step _ 'A' Reachable.new))

/-- C9: the three fallible operations `Board.add_move`, `Game.add_player`
and `Game.add_move` leave their state exactly unchanged on every error
path. -/
theorem C9_no_mutation_on_error :
    (∀ b p e, (Board.add_move b p).2 = Except.error e →
      (Board.add_move b p).1 = b) ∧
    (∀ g i e, (Game.add_player g i).2 = Except.error e →
      (Game.add_player g i).1 = g) ∧
    (∀ g i p e, (Game.add_move g i p).2 = Except.error e →
      (Game.add_move g i p).1 = g) := by
  have hboard : ∀ b p e, (Board.add_move b p).2 = Except.error e →
      (Board.add_move b p).1 = b := by
    intro b p e h
    unfold Board.add_move at h ⊢
    split_ifs at h ⊢
    all_goals rfl
  refine ⟨hboard, ?_, ?_⟩
  · intro g i e h
    simp only [Game.add_player] at h ⊢
    split_ifs at h ⊢
    all_goals rfl
  · intro g i p e h
    simp only [Game.add_move] at h ⊢
    split_ifs at h ⊢
    all_goals try rfl
    rcases hb : g.board.add_move p with ⟨b2, r⟩
    rw [hb] at h
    cases r with
    | ok n => exact Except.noConfusion h
    | error s =>
      have hb2 : b2 = g.board := by
        have h2 := hboard g.board p s (by rw [hb])
        rwa [hb] at h2
      subst hb2
      rfl

/-- C9 witness: a rejected duplicate move, a rejected duplicate player and a
move rejected before the roster is complete all leave their state intact. -/
theorem C9_no_mutation_on_error_witness :
    ((Board.new.add_move 'A').1.add_move 'A').1 =
      (Board.new.add_move 'A').1 ∧
    ((Game.new.add_player "P1").1.add_player "P1").1 =
      (Game.new.add_player "P1").1 ∧
    (Game.new.add_move "P1" 'A').1 = Game.new :=
  ⟨C9_no_mutation_on_error.1 (Board.new.add_move 'A').1 'A'
      "Position already taken." rfl,
    C9_no_mutation_on_error.2.1 (Game.new.add_player "P1").1 "P1"
      Error.CannotAddSamePlayerTwice rfl,
    C9_no_mutation_on_error.2.2 Game.new "P1" 'A'
      Error.GameNotStartedYet rfl⟩

/-- C10 witness: the scalar part at a = 2, b = 2 and the vector part at
(0, 1, 2) and (2, 2, 2). -/
theorem C10_semi_sum_no_overflow_witness :
    ((2 + 2) * 2 ≤ 8 ∧
      (((2 + 2) % 256) * 2) % 256 = (2 + 2) * 2 ∧
      z3_semi_sum 2 2 < 3) ∧
    ((semi_sum (0, 1, 2) (2, 2, 2)).1 < 3 ∧
      (semi_sum (0, 1, 2) (2, 2, 2)).2.1 < 3 ∧
      (semi_sum (0, 1, 2) (2, 2, 2)).2.2 < 3) :=
  ⟨C10_semi_sum_no_overflow.1 2 (by decide) 2 (by decide),
    C10_semi_sum_no_overflow.2 (0, 1, 2) (2, 2, 2) (by decide) (by decide)
      (by decide) (by decide) (by decide) (by decide)⟩

end Tris3d
